import Mathlib

/-!
# Verification of the tunnel core of `tf-go-tunnel-opensearch`

A shallow embedding of the forwarding-session core of `src/main.go`:
the SSH client configuration (`prepareSSHConfig`), the local listener
and accept loop (`startTunnel`), the per-connection proxy
(`handleConnection`, `copyData`), the readiness probe
(`waitForTunnelReady`), and the shutdown wiring
(`setupSignalHandler` plus the cancellation watcher inside
`startTunnel`).

External capabilities (the file system, the `ssh` library, the network)
are passed in as function parameters; the control flow of each Go
function is translated directly.  Sequential functions become Lean
functions producing the list of observable events they perform, in
program order; the concurrent shutdown paths are modelled by an
explicit interleaving relation on the event lists of the two goroutines
involved.
-/

namespace Tunnel

/-- A network address, the structured form of Go's `"host:port"` strings
(`fmt.Sprintf("%s:%d", host, port)` and friends). -/
structure Addr where
  host : String
  port : Nat
deriving DecidableEq, Repr

/-- Direction of one `copyData` byte-copy operation inside a connection
pair. -/
inductive Dir
  | localToRemote
  | remoteToLocal
deriving DecidableEq, Repr

/-- Observable events of the tunnel core, used to record what each
translated function does, in program order. Connections accepted by the
accept loop are identified by a natural number `cid` in acceptance
order. -/
inductive Event
  /-- Go statement `conns <- localConn`: the accepted connection is registered in the
  active-connections registry (the `conns` channel). -/
  | register (cid : Nat)
  /-- Go statement `client.Dial("tcp", ...)`: remote dial through the SSH transport,
  with its outcome. -/
  | dialRemote (cid : Nat) (addr : Addr) (ok : Bool)
  /-- Go statement `log.Printf("Failed to connect to remote host: %v", err)`. -/
  | logDialError (cid : Nat)
  /-- Go statement `go copyData(dst, src, done)`: one copy direction is started. -/
  | startCopy (cid : Nat) (d : Dir)
  /-- Go statement `<-done`: one receive from the `done` channel, i.e. one wait for
  the first copy direction to terminate. -/
  | waitDone (cid : Nat)
  /-- Go statement `remoteConn.Close()` (deferred in `handleConnection`). -/
  | closeRemote (cid : Nat)
  /-- Go statement `localConn.Close()` (deferred in `handleConnection`, and performed
  by the shutdown drain loop for registered connections). -/
  | closeLocal (cid : Nat)
  /-- Go statement `log.Printf("Error accepting connection: %v", err)`. -/
  | logAcceptError
  /-- Go statement `cancel()`: the context is cancelled. -/
  | cancelCtx
  /-- Go statement `listener.Close()`. -/
  | closeListener
  /-- Go statement `client.Close()`: the SSH transport session is closed. -/
  | closeClient
  /-- A handler goroutine parked forever in its registration send
  `conns <- localConn`: the channel buffer (capacity 10) is full and
  nothing receives from it during operation, so the send never
  completes and the handler performs no further action. -/
  | blockedRegister (cid : Nat)
deriving DecidableEq, Repr

/-! ## Connection pairs: `handleConnection` and `copyData`

`handleConnection(client, localConn, remoteHost, remotePort, conns)`
first sends `localConn` on the `conns` channel, then dials
`remoteHost:remotePort` through the SSH client.  On dial failure it
logs and returns, the deferred `localConn.Close()` firing.  On success
it starts two `copyData` goroutines sharing a `done` channel, performs
a single receive `<-done`, and returns; the deferred closes fire in
LIFO order: `remoteConn.Close()` then `localConn.Close()`. -/

/-- The events performed by `handleConnection` for connection `cid`,
given the remote target address and whether `client.Dial` succeeds.
This describes a handler whose registration send `conns <- localConn`
completed, which the channel semantics guarantee only while the
`conns` buffer holds fewer than `connsCapacity` connections;
`acceptLoopBounded` below makes that capacity bound explicit, and a
handler past the bound performs none of these events. -/
def handleConnection (cid : Nat) (remoteAddr : Addr) (dialOk : Bool) :
    List Event :=
  Event.register cid ::
  Event.dialRemote cid remoteAddr dialOk ::
  if dialOk then
    [Event.startCopy cid Dir.localToRemote,
     Event.startCopy cid Dir.remoteToLocal,
     Event.waitDone cid,
     Event.closeRemote cid,
     Event.closeLocal cid]
  else
    [Event.logDialError cid,
     Event.closeLocal cid]

/-- Abstract completion times of the two `copyData` operations of one
pair: the step at which each direction's `io.Copy` returns (EOF or
error) and it sends on `done`. -/
structure CopyOutcome where
  localToRemoteEnd : Nat
  remoteToLocalEnd : Nat
deriving DecidableEq, Repr

/-- The step at which `handleConnection` returns and closes both
connections: the single `<-done` receive completes when the first of
the two `copyData` goroutines sends, i.e. at the earlier of the two
completion times. -/
def pairCloseTime (o : CopyOutcome) : Nat :=
  min o.localToRemoteEnd o.remoteToLocalEnd

/-! ## The accept loop of `startTunnel`

The loop alternates `listener.Accept()` outcomes: a successful accept
spawns `handleConnection` and continues; an accept error first checks
`ctx.Err() != nil` (listener closed by cancellation: silent return) and
otherwise logs and continues.  One run of the loop is driven by the
finite list of accept outcomes the environment supplies. -/

/-- One outcome of `listener.Accept()` as seen by the accept loop:
either a connection was accepted (and its subsequent remote dial
succeeds or fails), or `Accept` returned an error while the
cancellation context was or was not already triggered. -/
inductive AcceptStep
  /-- Case where `Accept` returned a connection; `dialOk` is the outcome of the
  remote dial its handler will perform. -/
  | accepted (dialOk : Bool)
  /-- Case where `Accept` returned an error; `cancelled` records whether
  `ctx.Err() != nil` at that moment. -/
  | acceptError (cancelled : Bool)
deriving DecidableEq, Repr

/-- The events performed by the accept loop of `startTunnel`, starting
at connection id `cid`, when the environment produces the given accept
outcomes.  Handlers run in their own goroutines; their events are
recorded at spawn point, and every registration send is assumed to
complete — valid while at most `connsCapacity` connections are accepted
in the session.  `acceptLoopBounded` below refines this with the
registry channel's capacity bound. -/
def acceptLoop (remoteAddr : Addr) (cid : Nat) :
    List AcceptStep → List Event
  | [] => []
  | AcceptStep.accepted dialOk :: rest =>
      handleConnection cid remoteAddr dialOk ++
        acceptLoop remoteAddr (cid + 1) rest
  | AcceptStep.acceptError cancelled :: rest =>
      if cancelled then []
      else Event.logAcceptError :: acceptLoop remoteAddr cid rest

/-! ## The active-connections registry

`startTunnel` creates `conns := make(chan net.Conn, 10)`; each handler
sends its local connection on it exactly once (`conns <- localConn`)
and nothing ever receives from it during normal operation, so the
channel is a FIFO registry bounded by its buffer capacity of 10: the
first ten registration sends complete immediately, and every later
handler parks forever in its send — unregistered, never dialing, never
serving its connection.  At shutdown a watcher goroutine drains the
channel (`for conn := range conns { conn.Close() }`), closing exactly
the registered connections; a sender still parked when the deferred
`close(conns)` runs panics.  `acceptLoopBounded` models this capacity
regime; `acceptLoop` above is its restriction to sessions that stay
within capacity. -/

/-- Capacity of the `conns` registry channel:
`conns := make(chan net.Conn, 10)`. -/
def connsCapacity : Nat := 10

/-- The accept loop with the registry channel's semantics explicit.
`size` is the number of registrations already buffered in `conns`;
nothing receives from the channel during operation, so a handler
completes its send `conns <- localConn` (and then proceeds as
`handleConnection`) only while `size < connsCapacity`.  A handler
spawned with the buffer full parks forever in the send: it is never
registered, never dials, and never closes its connection. -/
def acceptLoopBounded (remoteAddr : Addr) :
    Nat → Nat → List AcceptStep → List Event
  | _, _, [] => []
  | cid, size, AcceptStep.accepted dialOk :: rest =>
      if size < connsCapacity then
        handleConnection cid remoteAddr dialOk ++
          acceptLoopBounded remoteAddr (cid + 1) (size + 1) rest
      else
        Event.blockedRegister cid ::
          acceptLoopBounded remoteAddr (cid + 1) size rest
  | cid, size, AcceptStep.acceptError cancelled :: rest =>
      if cancelled then []
      else Event.logAcceptError :: acceptLoopBounded remoteAddr cid size rest

/-- The contents of the `conns` registry produced by a trace: the
connection ids sent on the channel, in order.  No event ever removes a
connection (the code has no receive from `conns` outside the shutdown
drain). -/
def registeredConns (t : List Event) : List Nat :=
  t.filterMap fun e =>
    match e with
    | Event.register c => some c
    | _ => none

/-- The number of connections the accept loop actually accepts and
hands to `handleConnection` for a given list of accept outcomes (a
cancellation-triggered accept error stops the loop). -/
def acceptedCount : List AcceptStep → Nat
  | [] => 0
  | AcceptStep.accepted _ :: rest => acceptedCount rest + 1
  | AcceptStep.acceptError cancelled :: rest =>
      if cancelled then 0 else acceptedCount rest

/-! ## Shutdown: `setupSignalHandler` and the cancellation watcher

On an interrupt signal, the handler goroutine runs `cancel()` followed
immediately by `client.Close()`.  Independently, the watcher goroutine
inside `startTunnel` blocks on `<-ctx.Done()` and, once the context is
cancelled, runs `listener.Close()` and then closes every connection
drained from the `conns` registry.  The two goroutines are
unsynchronized after `cancel()`, so the observable shutdown traces are
exactly: `cancelCtx` first (both goroutines' remaining work waits on
it), followed by any interleaving of `[closeClient]` with the watcher's
events. -/

/-- The events of the cancellation watcher goroutine in `startTunnel`,
given the shutdown-time contents of the `conns` registry:
`listener.Close()` then `conn.Close()` for each drained connection, in
registry order. -/
def cancelWatcherEvents (cids : List Nat) : List Event :=
  Event.closeListener :: cids.map Event.closeLocal

/-- Relation `Interleaving xs ys zs`: `zs` is an order-preserving merge of the
two per-goroutine event lists `xs` and `ys`. -/
inductive Interleaving : List Event → List Event → List Event → Prop
  | nil : Interleaving [] [] []
  | left {xs ys zs} (a : Event) :
      Interleaving xs ys zs → Interleaving (a :: xs) ys (a :: zs)
  | right {xs ys zs} (a : Event) :
      Interleaving xs ys zs → Interleaving xs (a :: ys) (a :: zs)

/-- The possible global event orders of a signal-triggered shutdown
with registry contents `cids`: the signal handler's `cancel()` happens
first (everything else blocks on it), then its `client.Close()` runs
concurrently with the watcher's listener/connection teardown. -/
def ShutdownTrace (cids : List Nat) (t : List Event) : Prop :=
  ∃ rest, t = Event.cancelCtx :: rest ∧
    Interleaving [Event.closeClient] (cancelWatcherEvents cids) rest

/-! ## Transport-session setup: `prepareSSHConfig`

External capabilities are parameters: `os.UserHomeDir`/`os.ReadFile`
are a `FileSystem`, `ssh.ParsePrivateKey` is a `Bytes → Option Signer`
oracle (`none` = parse error). -/

/-- Raw key material (`[]byte`). -/
abbrev Bytes := List Nat

/-- A parsed signing credential (`ssh.Signer`), opaque to the tunnel
core. -/
structure Signer where
  keyMaterial : Bytes
deriving DecidableEq, Repr

/-- An SSH authentication method; the code only builds
`ssh.PublicKeys(signer)`. -/
inductive AuthMethod
  | publicKeys (s : Signer)
deriving DecidableEq, Repr

/-- The host-key verification policy installed in the client
configuration.  `insecureIgnoreHostKey` is `ssh.InsecureIgnoreHostKey()`:
every host key is accepted, i.e. no host identity verification. -/
inductive HostKeyCheck
  | insecureIgnoreHostKey
  | strictVerification
deriving DecidableEq, Repr

/-- One second, in nanoseconds (Go's `time.Second`). -/
def timeSecond : Nat := 1000000000

/-- One millisecond, in nanoseconds (Go's `time.Millisecond`). -/
def timeMillisecond : Nat := 1000000

/-- The `ssh.ClientConfig` built by `prepareSSHConfig`; `timeout` is in
nanoseconds as Go's `time.Duration`. -/
structure ClientConfig where
  user : String
  auth : List AuthMethod
  hostKeyCallback : HostKeyCheck
  timeout : Nat
deriving DecidableEq, Repr

/-- The file-system capabilities `expandPath` and `prepareSSHConfig`
use: `os.UserHomeDir` (`none` = error) and `os.ReadFile`
(`none` = read error). -/
structure FileSystem where
  userHomeDir : Option String
  readFile : String → Option Bytes

/-- Function `expandPath`: a leading `~` is replaced by the home directory
(joined as `filepath.Join(home, path[1:])`); if the home directory
cannot be determined, or the path does not start with `~`, the path is
returned unchanged. -/
def expandPath (fs : FileSystem) (path : String) : String :=
  if path.length = 0 ∨ path.get? 0 ≠ some '~' then path
  else
    match fs.userHomeDir with
    | none => path
    | some home => home ++ "/" ++ (path.drop 1).dropWhile (· = '/')

/-- The two failure modes of `prepareSSHConfig`. -/
inductive PrepareError
  | unableToReadPrivateKey
  | unableToParsePrivateKey
deriving DecidableEq, Repr

/-- Function `prepareSSHConfig(keyPath, username)`: reads the (tilde-expanded)
key file, parses it into a signer, and on success returns a client
configuration with public-key auth, `ssh.InsecureIgnoreHostKey()` as
the host-key callback, and a 15-second connection timeout. -/
def prepareSSHConfig (fs : FileSystem)
    (parsePrivateKey : Bytes → Option Signer)
    (keyPath username : String) : Except PrepareError ClientConfig :=
  let expandedKeyPath := expandPath fs keyPath
  match fs.readFile expandedKeyPath with
  | none => Except.error PrepareError.unableToReadPrivateKey
  | some key =>
    match parsePrivateKey key with
    | none => Except.error PrepareError.unableToParsePrivateKey
    | some signer =>
      Except.ok
        { user := username
          auth := [AuthMethod.publicKeys signer]
          hostKeyCallback := HostKeyCheck.insecureIgnoreHostKey
          timeout := 15 * timeSecond }

/-! ## `startTunnel`, `waitForTunnelReady`, and the `runTunnel` setup
pipeline

These are modelled as functions returning the list of setup-level
effects they perform, in program order, together with the Go `error`
result (`Option`/`Except` style; `none` = `nil`).  The accept-loop
goroutine spawned by `startTunnel` is modelled separately by
`acceptLoop` above. -/

/-- Setup-level effects of `runTunnel` / `startTunnel` /
`waitForTunnelReady`. -/
inductive SetupEvent
  /-- Go call `ssh.Dial("tcp", addr, cfg)`. -/
  | sshDialAttempt (addr : Addr) (cfg : ClientConfig)
  /-- Go call `net.Listen("tcp", addr)`. -/
  | bindAttempt (addr : Addr)
  /-- Go call `net.DialTimeout("tcp", addr, timeoutNs)`: one readiness-probe
  dial. -/
  | probeDial (addr : Addr) (timeoutNs : Nat)
  /-- Go call `time.Sleep(ns)`. -/
  | sleepNs (ns : Nat)
deriving DecidableEq, Repr

/-- The error `startTunnel` returns when `net.Listen` fails. -/
inductive TunnelError
  | bindFailed
deriving DecidableEq, Repr

/-- The loop body of `waitForTunnelReady`: up to `fuel` remaining
iterations starting at attempt index `i`; `probeOk i` is the outcome of
the `i`-th `net.DialTimeout`.  A successful dial closes the probe
connection and returns `nil` immediately; a failed one sleeps 500ms and
retries; when the attempts are exhausted the function still returns
`nil`. -/
def waitReadyLoop (probeOk : Nat → Bool) (port : Nat) :
    Nat → Nat → List SetupEvent × Option TunnelError
  | _, 0 => ([], none)
  | i, fuel + 1 =>
    let ev := SetupEvent.probeDial ⟨"localhost", port⟩ timeSecond
    if probeOk i then ([ev], none)
    else
      let (evs, r) := waitReadyLoop probeOk port (i + 1) fuel
      (ev :: SetupEvent.sleepNs (500 * timeMillisecond) :: evs, r)

/-- Function `waitForTunnelReady(port)`: five bounded local dial attempts. -/
def waitForTunnelReady (probeOk : Nat → Bool) (port : Nat) :
    List SetupEvent × Option TunnelError :=
  waitReadyLoop probeOk port 0 5

/-- Function `startTunnel`: binds `localhost:localPort` (`listenOk` is the
outcome of `net.Listen`); on failure it returns the bind error at once;
on success it spawns the accept-loop goroutine (modelled by
`acceptLoop`) and returns the result of `waitForTunnelReady`. -/
def startTunnel (listenOk : Addr → Bool) (probeOk : Nat → Bool)
    (localPort : Nat) : List SetupEvent × Option TunnelError :=
  let a : Addr := ⟨"localhost", localPort⟩
  if listenOk a then
    let (evs, r) := waitForTunnelReady probeOk localPort
    (SetupEvent.bindAttempt a :: evs, r)
  else
    ([SetupEvent.bindAttempt a], some TunnelError.bindFailed)

/-- A fatal setup error in `runTunnel`: each corresponds to a
`log.Fatalf` call, which aborts the whole process with a non-zero
exit. -/
inductive FatalError
  | prepareConfigFailed (e : PrepareError)
  | sshDialFailed
  | startTunnelFailed (e : TunnelError)
deriving DecidableEq, Repr

/-- The setup pipeline of `runTunnel` from `prepareSSHConfig` onward:
prepare the SSH configuration (fatal on error), dial the bastion at
`hostname:22` with it (fatal on error), then `startTunnel` (fatal on
error).  `sshDialOk` is the outcome of `ssh.Dial` for a given address
and configuration.  The result records the effects performed and
`some fatal` when the process aborts via `log.Fatalf`. -/
def runTunnelSetup (fs : FileSystem)
    (parsePrivateKey : Bytes → Option Signer)
    (sshDialOk : Addr → ClientConfig → Bool)
    (listenOk : Addr → Bool) (probeOk : Nat → Bool)
    (keyPath username hostname : String) (localPort : Nat) :
    List SetupEvent × Option FatalError :=
  match prepareSSHConfig fs parsePrivateKey keyPath username with
  | Except.error e => ([], some (FatalError.prepareConfigFailed e))
  | Except.ok sshConfig =>
    let dialAddr : Addr := ⟨hostname, 22⟩
    let ev := SetupEvent.sshDialAttempt dialAddr sshConfig
    if sshDialOk dialAddr sshConfig then
      match startTunnel listenOk probeOk localPort with
      | (evs, some e) => (ev :: evs, some (FatalError.startTunnelFailed e))
      | (evs, none) => (ev :: evs, none)
    else
      ([ev], some FatalError.sshDialFailed)

/-! Sanity checks (concrete evaluations of the embedding). -/

example :
    handleConnection 0 ⟨"os.internal", 443⟩ false =
      [Event.register 0, Event.dialRemote 0 ⟨"os.internal", 443⟩ false,
       Event.logDialError 0, Event.closeLocal 0] := by decide

example :
    acceptLoop ⟨"h", 443⟩ 0
        [AcceptStep.accepted false, AcceptStep.accepted true,
         AcceptStep.acceptError true] =
      handleConnection 0 ⟨"h", 443⟩ false ++
        handleConnection 1 ⟨"h", 443⟩ true := by decide

example :
    registeredConns
        (acceptLoop ⟨"h", 443⟩ 0
          [AcceptStep.accepted false, AcceptStep.acceptError false,
           AcceptStep.accepted true]) = [0, 1] := by decide

example :
    (waitForTunnelReady (fun i => decide (2 ≤ i)) 5602).1.countP
        (fun e => match e with | SetupEvent.probeDial _ _ => true | _ => false)
      = 3 := by decide

example :
    (waitForTunnelReady (fun _ => false) 5602).2 = none := by decide

example :
    startTunnel (fun _ => false) (fun _ => true) 5602 =
      ([SetupEvent.bindAttempt ⟨"localhost", 5602⟩],
       some TunnelError.bindFailed) := by decide

/-! ## Helper lemmas -/

/-- The number of readiness-probe dials in a list of setup events. -/
def probeCount (evs : List SetupEvent) : Nat :=
  evs.countP fun e =>
    match e with
    | SetupEvent.probeDial _ _ => true
    | _ => false

/-- The number of bind attempts in a list of setup events. -/
def bindCount (evs : List SetupEvent) : Nat :=
  evs.countP fun e =>
    match e with
    | SetupEvent.bindAttempt _ => true
    | _ => false

theorem interleaving_sublist_left {xs ys zs : List Event}
    (h : Interleaving xs ys zs) : List.Sublist xs zs := by
  induction h with
  | nil => exact List.Sublist.refl []
  | left a _ ih => exact ih.cons₂ a
  | right a _ ih => exact ih.cons a

theorem interleaving_sublist_right {xs ys zs : List Event}
    (h : Interleaving xs ys zs) : List.Sublist ys zs := by
  induction h with
  | nil => exact List.Sublist.refl []
  | left a _ ih => exact ih.cons a
  | right a _ ih => exact ih.cons₂ a

theorem registeredConns_append (s t : List Event) :
    registeredConns (s ++ t) = registeredConns s ++ registeredConns t :=
  List.filterMap_append s t _

theorem registeredConns_handleConnection (cid : Nat) (remoteAddr : Addr)
    (dialOk : Bool) :
    registeredConns (handleConnection cid remoteAddr dialOk) = [cid] := by
  cases dialOk <;> rfl

theorem registeredConns_acceptLoop (remoteAddr : Addr) :
    ∀ (steps : List AcceptStep) (cid : Nat),
      registeredConns (acceptLoop remoteAddr cid steps) =
        List.range' cid (acceptedCount steps) := by
  intro steps
  induction steps with
  | nil => intro cid; rfl
  | cons s rest ih =>
    intro cid
    cases s with
    | accepted dialOk =>
      rw [acceptLoop, registeredConns_append,
        registeredConns_handleConnection, acceptedCount,
        List.range'_succ, ih]
      rfl
    | acceptError cancelled =>
      cases cancelled with
      | true => rfl
      | false =>
        show registeredConns (Event.logAcceptError :: _) = _
        rw [acceptedCount]
        simp only [if_neg (by simp : ¬(false = true))]
        show registeredConns (acceptLoop remoteAddr cid rest) = _
        exact ih cid

theorem registeredConns_acceptLoopBounded_length (remoteAddr : Addr) :
    ∀ (steps : List AcceptStep) (cid size : Nat),
      size +
        (registeredConns (acceptLoopBounded remoteAddr cid size steps)).length ≤
        max size connsCapacity := by
  intro steps
  induction steps with
  | nil =>
    intro cid size
    simp [acceptLoopBounded, registeredConns]
  | cons s rest ih =>
    intro cid size
    cases s with
    | accepted dialOk =>
      by_cases h : size < connsCapacity
      · rw [acceptLoopBounded, if_pos h, registeredConns_append,
          registeredConns_handleConnection]
        have hrec := ih (cid + 1) (size + 1)
        simp only [List.length_append, List.length_cons, List.length_nil]
        simp only [connsCapacity] at h hrec ⊢
        omega
      · rw [acceptLoopBounded, if_neg h]
        have hrec := ih (cid + 1) size
        show size + (registeredConns (Event.blockedRegister cid :: _)).length ≤ _
        simp only [registeredConns, List.filterMap_cons] at hrec ⊢
        omega
    | acceptError cancelled =>
      cases cancelled with
      | true =>
        simp [acceptLoopBounded, registeredConns]
      | false =>
        have hrec := ih cid size
        rw [acceptLoopBounded, if_neg (by simp : ¬(false = true))]
        show size + (registeredConns (Event.logAcceptError :: _)).length ≤ _
        simp only [registeredConns, List.filterMap_cons] at hrec ⊢
        omega

theorem waitReadyLoop_snd_eq_none (probeOk : Nat → Bool) (port : Nat) :
    ∀ (fuel i : Nat), (waitReadyLoop probeOk port i fuel).2 = none := by
  intro fuel
  induction fuel with
  | zero => intro i; rfl
  | succ n ih =>
    intro i
    by_cases h : probeOk i
    · simp [waitReadyLoop, h]
    · simp [waitReadyLoop, h, ih]

theorem waitReadyLoop_events (probeOk : Nat → Bool) (port : Nat) :
    ∀ (fuel i : Nat) (e : SetupEvent),
      e ∈ (waitReadyLoop probeOk port i fuel).1 →
      e = SetupEvent.probeDial ⟨"localhost", port⟩ timeSecond ∨
        e = SetupEvent.sleepNs (500 * timeMillisecond) := by
  intro fuel
  induction fuel with
  | zero => intro i e h; cases h
  | succ n ih =>
    intro i e h
    by_cases hp : probeOk i
    · simp [waitReadyLoop, hp] at h
      exact Or.inl h
    · simp only [waitReadyLoop, hp, if_neg] at h
      rcases List.mem_cons.mp h with h1 | h1
      · exact Or.inl h1
      · rcases List.mem_cons.mp h1 with h2 | h2
        · exact Or.inr h2
        · exact ih (i + 1) e h2

theorem probeCount_waitReadyLoop_le (probeOk : Nat → Bool) (port : Nat) :
    ∀ (fuel i : Nat), probeCount (waitReadyLoop probeOk port i fuel).1 ≤ fuel := by
  intro fuel
  induction fuel with
  | zero => intro i; exact Nat.le_refl 0
  | succ n ih =>
    intro i
    by_cases h : probeOk i
    · simp [waitReadyLoop, h, probeCount]
    · simp only [waitReadyLoop, h, if_neg]
      show probeCount (_ :: _ :: _) ≤ n + 1
      simp [probeCount, List.countP_cons]
      have := ih (i + 1)
      simp only [probeCount] at this
      omega

theorem probeCount_waitReadyLoop_all_fail (probeOk : Nat → Bool) (port : Nat) :
    ∀ (fuel i : Nat), (∀ j, j < fuel → probeOk (i + j) = false) →
      probeCount (waitReadyLoop probeOk port i fuel).1 = fuel := by
  intro fuel
  induction fuel with
  | zero => intro i _; rfl
  | succ n ih =>
    intro i hfail
    have h0 : probeOk i = false := by
      have := hfail 0 (Nat.succ_pos n)
      simpa using this
    simp only [waitReadyLoop, h0, Bool.false_eq_true, if_neg, not_false_iff]
    show probeCount (_ :: _ :: _) = n + 1
    simp [probeCount, List.countP_cons]
    have hrec := ih (i + 1) (fun j hj => by
      have := hfail (j + 1) (Nat.succ_lt_succ hj)
      simpa [Nat.add_assoc, Nat.add_comm 1 j] using this)
    simp only [probeCount] at hrec
    omega

theorem probeCount_waitReadyLoop_success (probeOk : Nat → Bool) (port : Nat) :
    ∀ (fuel i k : Nat), k < fuel → (∀ j, j < k → probeOk (i + j) = false) →
      probeOk (i + k) = true →
      probeCount (waitReadyLoop probeOk port i fuel).1 = k + 1 := by
  intro fuel
  induction fuel with
  | zero => intro i k hk; exact absurd hk (Nat.not_lt_zero k)
  | succ n ih =>
    intro i k hk hfail hsucc
    cases k with
    | zero =>
      have h0 : probeOk i = true := by simpa using hsucc
      simp [waitReadyLoop, h0, probeCount]
    | succ m =>
      have h0 : probeOk i = false := by
        have := hfail 0 (Nat.succ_pos m)
        simpa using this
      simp only [waitReadyLoop, h0, Bool.false_eq_true, if_neg, not_false_iff]
      show probeCount (_ :: _ :: _) = m + 1 + 1
      simp [probeCount, List.countP_cons]
      have hrec := ih (i + 1) m (Nat.lt_of_succ_lt_succ hk)
        (fun j hj => by
          have := hfail (j + 1) (Nat.succ_lt_succ hj)
          simpa [Nat.add_assoc, Nat.add_comm 1 j] using this)
        (by
          have : i + 1 + m = i + (m + 1) := by omega
          rw [this]; exact hsucc)
      simp only [probeCount] at hrec
      omega

theorem startTunnel_events (listenOk : Addr → Bool) (probeOk : Nat → Bool)
    (port : Nat) (e : SetupEvent)
    (h : e ∈ (startTunnel listenOk probeOk port).1) :
    e = SetupEvent.bindAttempt ⟨"localhost", port⟩ ∨
      e = SetupEvent.probeDial ⟨"localhost", port⟩ timeSecond ∨
      e = SetupEvent.sleepNs (500 * timeMillisecond) := by
  by_cases hl : listenOk ⟨"localhost", port⟩
  · simp only [startTunnel, hl, if_pos] at h
    rcases List.mem_cons.mp h with h1 | h1
    · exact Or.inl h1
    · exact Or.inr (waitReadyLoop_events probeOk port 5 0 e h1)
  · simp only [startTunnel, hl, Bool.false_eq_true, if_neg, not_false_iff] at h
    rcases List.mem_cons.mp h with h1 | h1
    · exact Or.inl h1
    · cases h1

theorem prepareSSHConfig_eq (fs : FileSystem)
    (parsePrivateKey : Bytes → Option Signer) (keyPath username : String) :
    prepareSSHConfig fs parsePrivateKey keyPath username =
      match fs.readFile (expandPath fs keyPath) with
      | none => Except.error PrepareError.unableToReadPrivateKey
      | some key =>
        match parsePrivateKey key with
        | none => Except.error PrepareError.unableToParsePrivateKey
        | some signer =>
          Except.ok
            ⟨username, [AuthMethod.publicKeys signer],
             HostKeyCheck.insecureIgnoreHostKey, 15 * timeSecond⟩ := rfl

theorem prepareSSHConfig_ok_fields (fs : FileSystem)
    (parsePrivateKey : Bytes → Option Signer) (keyPath username : String)
    (cfg : ClientConfig)
    (h : prepareSSHConfig fs parsePrivateKey keyPath username = Except.ok cfg) :
    cfg.timeout = 15 * timeSecond ∧
    cfg.hostKeyCallback = HostKeyCheck.insecureIgnoreHostKey ∧
    cfg.user = username := by
  rw [prepareSSHConfig_eq] at h
  cases hr : fs.readFile (expandPath fs keyPath) with
  | none => rw [hr] at h; cases h
  | some key =>
    rw [hr] at h
    dsimp only at h
    cases hp : parsePrivateKey key with
    | none => rw [hp] at h; cases h
    | some signer =>
      rw [hp] at h
      dsimp only at h
      cases h
      exact ⟨rfl, rfl, rfl⟩

theorem startTunnel_snd (listenOk : Addr → Bool) (probeOk : Nat → Bool)
    (port : Nat) :
    (startTunnel listenOk probeOk port).2 =
      if listenOk ⟨"localhost", port⟩ then none
      else some TunnelError.bindFailed := by
  by_cases hl : listenOk ⟨"localhost", port⟩
  · simp [startTunnel, hl, waitForTunnelReady,
      waitReadyLoop_snd_eq_none probeOk port 5 0]
  · simp [startTunnel, hl]

theorem runTunnelSetup_eq_error (fs : FileSystem)
    (parsePrivateKey : Bytes → Option Signer)
    (sshDialOk : Addr → ClientConfig → Bool) (listenOk : Addr → Bool)
    (probeOk : Nat → Bool) (keyPath username hostname : String)
    (localPort : Nat) (e : PrepareError)
    (hp : prepareSSHConfig fs parsePrivateKey keyPath username =
      Except.error e) :
    runTunnelSetup fs parsePrivateKey sshDialOk listenOk probeOk keyPath
        username hostname localPort =
      ([], some (FatalError.prepareConfigFailed e)) := by
  unfold runTunnelSetup
  rw [hp]

theorem runTunnelSetup_eq_ok (fs : FileSystem)
    (parsePrivateKey : Bytes → Option Signer)
    (sshDialOk : Addr → ClientConfig → Bool) (listenOk : Addr → Bool)
    (probeOk : Nat → Bool) (keyPath username hostname : String)
    (localPort : Nat) (cfg : ClientConfig)
    (hp : prepareSSHConfig fs parsePrivateKey keyPath username =
      Except.ok cfg) :
    runTunnelSetup fs parsePrivateKey sshDialOk listenOk probeOk keyPath
        username hostname localPort =
      (if sshDialOk ⟨hostname, 22⟩ cfg then
        match startTunnel listenOk probeOk localPort with
        | (evs, some e) =>
          (SetupEvent.sshDialAttempt ⟨hostname, 22⟩ cfg :: evs,
           some (FatalError.startTunnelFailed e))
        | (evs, none) =>
          (SetupEvent.sshDialAttempt ⟨hostname, 22⟩ cfg :: evs, none)
      else
        ([SetupEvent.sshDialAttempt ⟨hostname, 22⟩ cfg],
         some FatalError.sshDialFailed)) := by
  unfold runTunnelSetup
  rw [hp]

/-! ## Claim theorems -/

/-- C1: for every accepted local connection, if the remote dial through
the transport session fails, `handleConnection` closes that local
connection without performing any byte copy, the failure is logged, and
the accept loop continues to accept and serve subsequent connections
unaffected (in particular, a later connection to a reachable target is
served). -/
theorem claim_C1_dial_failure_isolated (remoteAddr : Addr) (cid : Nat)
    (rest : List AcceptStep) :
    Event.closeLocal cid ∈ handleConnection cid remoteAddr false ∧
    Event.logDialError cid ∈ handleConnection cid remoteAddr false ∧
    (∀ c d, Event.startCopy c d ∉ handleConnection cid remoteAddr false) ∧
    (∀ c, Event.waitDone c ∉ handleConnection cid remoteAddr false) ∧
    acceptLoop remoteAddr cid (AcceptStep.accepted false :: rest) =
      handleConnection cid remoteAddr false ++
        acceptLoop remoteAddr (cid + 1) rest ∧
    Event.startCopy (cid + 1) Dir.localToRemote ∈
      acceptLoop remoteAddr cid
        (AcceptStep.accepted false :: AcceptStep.accepted true :: rest) := by
  refine ⟨?_, ?_, ?_, ?_, rfl, ?_⟩
  · simp [handleConnection]
  · simp [handleConnection]
  · intro c d; simp [handleConnection]
  · intro c; simp [handleConnection]
  · simp [acceptLoop, handleConnection]

/-- Witness for C1 at a concrete connection. -/
theorem claim_C1_witness :
    Event.closeLocal 0 ∈ handleConnection 0 ⟨"os.internal", 443⟩ false ∧
    Event.logDialError 0 ∈ handleConnection 0 ⟨"os.internal", 443⟩ false ∧
    Event.startCopy 0 Dir.localToRemote ∉
      handleConnection 0 ⟨"os.internal", 443⟩ false ∧
    Event.startCopy 1 Dir.localToRemote ∈
      acceptLoop ⟨"os.internal", 443⟩ 0
        [AcceptStep.accepted false, AcceptStep.accepted true] := by
  have h := claim_C1_dial_failure_isolated ⟨"os.internal", 443⟩ 0 []
  exact ⟨h.1, h.2.1, h.2.2.1 0 Dir.localToRemote, h.2.2.2.2.2⟩

/-- C2: on a successful remote dial, `handleConnection` starts both
copy directions, performs exactly one receive on the `done` channel,
and then closes the remote and local connections; the close time is the
earlier of the two copy completion times, strictly before the later one
whenever they differ. -/
theorem claim_C2_first_direction_wins (remoteAddr : Addr) (cid : Nat)
    (o : CopyOutcome) :
    Event.startCopy cid Dir.localToRemote ∈
      handleConnection cid remoteAddr true ∧
    Event.startCopy cid Dir.remoteToLocal ∈
      handleConnection cid remoteAddr true ∧
    (handleConnection cid remoteAddr true).countP
        (fun e => match e with | Event.waitDone _ => true | _ => false) = 1 ∧
    (handleConnection cid remoteAddr true).drop 4 =
      [Event.waitDone cid, Event.closeRemote cid, Event.closeLocal cid] ∧
    pairCloseTime o ≤ o.localToRemoteEnd ∧
    pairCloseTime o ≤ o.remoteToLocalEnd ∧
    (pairCloseTime o = o.localToRemoteEnd ∨
      pairCloseTime o = o.remoteToLocalEnd) ∧
    (o.localToRemoteEnd ≠ o.remoteToLocalEnd →
      pairCloseTime o < max o.localToRemoteEnd o.remoteToLocalEnd) := by
  refine ⟨?_, ?_, ?_, rfl, ?_, ?_, ?_, ?_⟩
  · simp [handleConnection]
  · simp [handleConnection]
  · simp [handleConnection]
  · simp only [pairCloseTime]; omega
  · simp only [pairCloseTime]; omega
  · simp only [pairCloseTime]; omega
  · intro hne; simp only [pairCloseTime]; omega

/-- Witness for C2 at a concrete connection and copy outcome. -/
theorem claim_C2_witness :
    Event.startCopy 7 Dir.localToRemote ∈ handleConnection 7 ⟨"os", 443⟩ true ∧
    Event.startCopy 7 Dir.remoteToLocal ∈ handleConnection 7 ⟨"os", 443⟩ true ∧
    (handleConnection 7 ⟨"os", 443⟩ true).countP
        (fun e => match e with | Event.waitDone _ => true | _ => false) = 1 ∧
    pairCloseTime ⟨1, 2⟩ ≤ 1 ∧
    (1 : Nat) ≠ 2 ∧ pairCloseTime ⟨1, 2⟩ < max 1 2 := by
  have h := claim_C2_first_direction_wins ⟨"os", 443⟩ 7 ⟨1, 2⟩
  exact ⟨h.1, h.2.1, h.2.2.1, h.2.2.2.2.1, by decide,
    h.2.2.2.2.2.2.2 (by decide)⟩

/-- C5: on an accept error, the loop exits silently when the
cancellation context is already triggered, and otherwise logs the error
and continues accepting; the cancellation check governs every
accept-error path. -/
theorem claim_C5_accept_error_distinguishes_cancellation
    (remoteAddr : Addr) (cid : Nat) (rest : List AcceptStep) :
    acceptLoop remoteAddr cid (AcceptStep.acceptError true :: rest) = [] ∧
    acceptLoop remoteAddr cid (AcceptStep.acceptError false :: rest) =
      Event.logAcceptError :: acceptLoop remoteAddr cid rest :=
  ⟨rfl, rfl⟩

/-- C10: `handleConnection` registers the accepted connection in the
`conns` registry before attempting the remote dial; in particular a
connection whose dial fails still occupies its registry slot. -/
theorem claim_C10_register_before_dial (remoteAddr : Addr) (cid : Nat)
    (dialOk : Bool) :
    (handleConnection cid remoteAddr dialOk).take 2 =
      [Event.register cid, Event.dialRemote cid remoteAddr dialOk] ∧
    registeredConns (handleConnection cid remoteAddr false) = [cid] :=
  ⟨rfl, registeredConns_handleConnection cid remoteAddr false⟩

/-- C3 counterexample: the claim asserts the transport session is
closed only after the listener and all tracked connections.  But the
signal handler runs `client.Close()` immediately after `cancel()`,
unsynchronized with the watcher goroutine, so the shutdown trace in
which the transport closes first is a legal behavior of the code: it is
a `ShutdownTrace`, yet the listener close does not precede the
transport close in it. -/
theorem claim_C3_counterexample :
    ShutdownTrace [0]
      [Event.cancelCtx, Event.closeClient, Event.closeListener,
       Event.closeLocal 0] ∧
    ¬ List.Sublist [Event.closeListener, Event.closeClient]
        [Event.cancelCtx, Event.closeClient, Event.closeListener,
         Event.closeLocal 0] := by
  constructor
  · exact ⟨[Event.closeClient, Event.closeListener, Event.closeLocal 0], rfl,
      Interleaving.left Event.closeClient
        (Interleaving.right Event.closeListener
          (Interleaving.right (Event.closeLocal 0) Interleaving.nil))⟩
  · decide

/-- C3 (amended): on cancellation, the context is cancelled first and
the watcher then closes the listener before every tracked local
connection; the transport session is closed after cancellation is
triggered, but concurrently with — not necessarily after — the
listener and connection teardown. -/
theorem claim_C3_amended_teardown_order (cids : List Nat) (t : List Event)
    (h : ShutdownTrace cids t) :
    t.head? = some Event.cancelCtx ∧
    List.Sublist [Event.cancelCtx, Event.closeClient] t ∧
    List.Sublist [Event.cancelCtx, Event.closeListener] t ∧
    ∀ c ∈ cids,
      List.Sublist [Event.closeListener, Event.closeLocal c] t := by
  obtain ⟨rest, rfl, hint⟩ := h
  refine ⟨rfl, ?_, ?_, ?_⟩
  · exact (interleaving_sublist_left hint).cons₂ Event.cancelCtx
  · have h1 : List.Sublist [Event.closeListener] (cancelWatcherEvents cids) :=
      (List.nil_sublist _).cons₂ Event.closeListener
    exact ((h1.trans (interleaving_sublist_right hint)).cons₂ Event.cancelCtx)
  · intro c hc
    have h1 : List.Sublist [Event.closeListener, Event.closeLocal c]
        (cancelWatcherEvents cids) := by
      refine List.Sublist.cons₂ Event.closeListener ?_
      exact List.singleton_sublist.mpr (List.mem_map.mpr ⟨c, hc, rfl⟩)
    exact ((h1.trans (interleaving_sublist_right hint)).cons Event.cancelCtx)

/-- Witness for the amended C3 on a concrete in-order shutdown trace. -/
theorem claim_C3_amended_witness :
    ShutdownTrace [0]
      [Event.cancelCtx, Event.closeListener, Event.closeLocal 0,
       Event.closeClient] ∧
    List.Sublist [Event.cancelCtx, Event.closeClient]
      [Event.cancelCtx, Event.closeListener, Event.closeLocal 0,
       Event.closeClient] ∧
    List.Sublist [Event.closeListener, Event.closeLocal 0]
      [Event.cancelCtx, Event.closeListener, Event.closeLocal 0,
       Event.closeClient] := by
  have hS : ShutdownTrace [0]
      [Event.cancelCtx, Event.closeListener, Event.closeLocal 0,
       Event.closeClient] :=
    ⟨[Event.closeListener, Event.closeLocal 0, Event.closeClient], rfl,
      Interleaving.right Event.closeListener
        (Interleaving.right (Event.closeLocal 0)
          (Interleaving.left Event.closeClient Interleaving.nil))⟩
  have h := claim_C3_amended_teardown_order [0] _ hS
  exact ⟨hS, h.2.1, h.2.2.2 0 (by decide)⟩

/-- C4 (code bug): the claim requires every accepted connection to
consume one registry slot and to be removed on completion or closed by
the shutdown drain.  The code never removes anything from `conns`, and
its buffer holds only `connsCapacity = 10` connections, so in a session
accepting 11 connections the eleventh handler parks forever in its
registration send: only ids 0 through 9 are ever registered, connection
10 emits no `register` event, performs no remote dial, and the
wholesale drain at shutdown does not close it — the registry forgets
it. -/
theorem claim_C4_registry_overflow_bug :
    registeredConns
        (acceptLoopBounded ⟨"os.internal", 443⟩ 0 0
          (List.replicate 11 (AcceptStep.accepted true))) =
      List.range' 0 10 ∧
    Event.blockedRegister 10 ∈
      acceptLoopBounded ⟨"os.internal", 443⟩ 0 0
        (List.replicate 11 (AcceptStep.accepted true)) ∧
    Event.register 10 ∉
      acceptLoopBounded ⟨"os.internal", 443⟩ 0 0
        (List.replicate 11 (AcceptStep.accepted true)) ∧
    Event.dialRemote 10 ⟨"os.internal", 443⟩ true ∉
      acceptLoopBounded ⟨"os.internal", 443⟩ 0 0
        (List.replicate 11 (AcceptStep.accepted true)) ∧
    Event.closeLocal 10 ∉
      cancelWatcherEvents
        (registeredConns
          (acceptLoopBounded ⟨"os.internal", 443⟩ 0 0
            (List.replicate 11 (AcceptStep.accepted true)))) := by
  decide

/-- C6: every successful `prepareSSHConfig` result carries a 15-second
connection timeout and disabled host-key verification, and every SSH
dial the setup pipeline performs targets the bastion host on port 22
using exactly that configuration. -/
theorem claim_C6_insecure_config_port22_timeout15 (fs : FileSystem)
    (parsePrivateKey : Bytes → Option Signer)
    (sshDialOk : Addr → ClientConfig → Bool) (listenOk : Addr → Bool)
    (probeOk : Nat → Bool) (keyPath username hostname : String)
    (localPort : Nat) :
    (∀ cfg, prepareSSHConfig fs parsePrivateKey keyPath username =
        Except.ok cfg →
      cfg.timeout = 15 * timeSecond ∧
      cfg.hostKeyCallback = HostKeyCheck.insecureIgnoreHostKey) ∧
    (∀ a c, SetupEvent.sshDialAttempt a c ∈
        (runTunnelSetup fs parsePrivateKey sshDialOk listenOk probeOk
          keyPath username hostname localPort).1 →
      a = ⟨hostname, 22⟩ ∧
      prepareSSHConfig fs parsePrivateKey keyPath username =
        Except.ok c) := by
  constructor
  · intro cfg h
    have hf := prepareSSHConfig_ok_fields fs parsePrivateKey keyPath
      username cfg h
    exact ⟨hf.1, hf.2.1⟩
  · intro a c h
    cases hp : prepareSSHConfig fs parsePrivateKey keyPath username with
    | error e =>
      rw [runTunnelSetup_eq_error fs parsePrivateKey sshDialOk listenOk
        probeOk keyPath username hostname localPort e hp] at h
      cases h
    | ok cfg =>
      rw [runTunnelSetup_eq_ok fs parsePrivateKey sshDialOk listenOk
        probeOk keyPath username hostname localPort cfg hp] at h
      by_cases hd : sshDialOk ⟨hostname, 22⟩ cfg
      · rw [if_pos hd] at h
        cases hst : startTunnel listenOk probeOk localPort with
        | mk evs r =>
          rw [hst] at h
          have hmem : SetupEvent.sshDialAttempt a c =
              SetupEvent.sshDialAttempt ⟨hostname, 22⟩ cfg ∨
              SetupEvent.sshDialAttempt a c ∈ evs := by
            cases r with
            | none => exact List.mem_cons.mp h
            | some e => exact List.mem_cons.mp h
          rcases hmem with h1 | h1
          · cases h1
            exact ⟨rfl, rfl⟩
          · have := startTunnel_events listenOk probeOk localPort _
              (by rw [hst]; exact h1)
            rcases this with h2 | h2 | h2 <;> cases h2
      · rw [if_neg hd] at h
        rcases List.mem_cons.mp h with h1 | h1
        · cases h1
          exact ⟨rfl, rfl⟩
        · cases h1

/-- Witness for C6 on a concrete world where setup succeeds. -/
theorem claim_C6_witness :
    prepareSSHConfig ⟨some "/home/u", fun _ => some [1]⟩
        (fun b => some ⟨b⟩) "" "ubuntu" =
      Except.ok ⟨"ubuntu", [AuthMethod.publicKeys ⟨[1]⟩],
        HostKeyCheck.insecureIgnoreHostKey, 15 * timeSecond⟩ ∧
    SetupEvent.sshDialAttempt ⟨"bastion", 22⟩
        ⟨"ubuntu", [AuthMethod.publicKeys ⟨[1]⟩],
         HostKeyCheck.insecureIgnoreHostKey, 15 * timeSecond⟩ ∈
      (runTunnelSetup ⟨some "/home/u", fun _ => some [1]⟩
        (fun b => some ⟨b⟩) (fun _ _ => true) (fun _ => true)
        (fun _ => true) "" "ubuntu" "bastion" 5602).1 ∧
    (⟨"ubuntu", [AuthMethod.publicKeys ⟨[1]⟩],
      HostKeyCheck.insecureIgnoreHostKey,
      15 * timeSecond⟩ : ClientConfig).timeout = 15 * timeSecond ∧
    (⟨"ubuntu", [AuthMethod.publicKeys ⟨[1]⟩],
      HostKeyCheck.insecureIgnoreHostKey,
      15 * timeSecond⟩ : ClientConfig).hostKeyCallback =
      HostKeyCheck.insecureIgnoreHostKey := by
  have hmem : SetupEvent.sshDialAttempt ⟨"bastion", 22⟩
      ⟨"ubuntu", [AuthMethod.publicKeys ⟨[1]⟩],
       HostKeyCheck.insecureIgnoreHostKey, 15 * timeSecond⟩ ∈
      (runTunnelSetup ⟨some "/home/u", fun _ => some [1]⟩
        (fun b => some ⟨b⟩) (fun _ _ => true) (fun _ => true)
        (fun _ => true) "" "ubuntu" "bastion" 5602).1 := by
    decide
  have h := claim_C6_insecure_config_port22_timeout15
    ⟨some "/home/u", fun _ => some [1]⟩ (fun b => some ⟨b⟩)
    (fun _ _ => true) (fun _ => true) (fun _ => true) "" "ubuntu"
    "bastion" 5602
  have hok := (h.2 _ _ hmem).2
  have hf := h.1 _ hok
  exact ⟨hok, hmem, hf.1, hf.2⟩

/-- C7: whenever the key material cannot be read or parsed,
`prepareSSHConfig` returns an error rather than a configuration, and
the setup pipeline turns it into a fatal abort of the whole session. -/
theorem claim_C7_invalid_key_material_fatal (fs : FileSystem)
    (parsePrivateKey : Bytes → Option Signer)
    (sshDialOk : Addr → ClientConfig → Bool) (listenOk : Addr → Bool)
    (probeOk : Nat → Bool) (keyPath username hostname : String)
    (localPort : Nat)
    (h : fs.readFile (expandPath fs keyPath) = none ∨
      ∃ b, fs.readFile (expandPath fs keyPath) = some b ∧
        parsePrivateKey b = none) :
    ∃ e, prepareSSHConfig fs parsePrivateKey keyPath username =
        Except.error e ∧
      (runTunnelSetup fs parsePrivateKey sshDialOk listenOk probeOk
        keyPath username hostname localPort).2 =
        some (FatalError.prepareConfigFailed e) := by
  have herr : ∃ e, prepareSSHConfig fs parsePrivateKey keyPath username =
      Except.error e := by
    rcases h with h1 | ⟨b, hb, hpb⟩
    · exact ⟨PrepareError.unableToReadPrivateKey, by
        rw [prepareSSHConfig_eq, h1]⟩
    · exact ⟨PrepareError.unableToParsePrivateKey, by
        rw [prepareSSHConfig_eq, hb]
        dsimp only
        rw [hpb]⟩
  rcases herr with ⟨e, he⟩
  refine ⟨e, he, ?_⟩
  rw [runTunnelSetup_eq_error fs parsePrivateKey sshDialOk listenOk
    probeOk keyPath username hostname localPort e he]

/-- Witness for C7 on a world whose key file cannot be read. -/
theorem claim_C7_witness :
    ((⟨none, fun _ => none⟩ : FileSystem).readFile
        (expandPath ⟨none, fun _ => none⟩ "~/.ssh/key.pem") = none ∨
      ∃ b, (⟨none, fun _ => none⟩ : FileSystem).readFile
          (expandPath ⟨none, fun _ => none⟩ "~/.ssh/key.pem") = some b ∧
        (fun b2 => some (Signer.mk b2)) b = none) ∧
    ∃ e, prepareSSHConfig ⟨none, fun _ => none⟩
        (fun b2 => some (Signer.mk b2)) "~/.ssh/key.pem" "ubuntu" =
        Except.error e ∧
      (runTunnelSetup ⟨none, fun _ => none⟩ (fun b2 => some (Signer.mk b2))
        (fun _ _ => true) (fun _ => true) (fun _ => true)
        "~/.ssh/key.pem" "ubuntu" "bastion" 5602).2 =
        some (FatalError.prepareConfigFailed e) :=
  ⟨Or.inl rfl,
    claim_C7_invalid_key_material_fatal ⟨none, fun _ => none⟩
      (fun b2 => some (Signer.mk b2)) (fun _ _ => true) (fun _ => true)
      (fun _ => true) "~/.ssh/key.pem" "ubuntu" "bastion" 5602
      (Or.inl rfl)⟩

/-- C8: `startTunnel` performs exactly one bind, at `localhost:localPort`;
when the bind fails it returns the bind error synchronously with no
retry, and the setup pipeline treats that error as fatal. -/
theorem claim_C8_bind_failure_fatal (listenOk : Addr → Bool)
    (probeOk : Nat → Bool) (localPort : Nat) (fs : FileSystem)
    (parsePrivateKey : Bytes → Option Signer)
    (sshDialOk : Addr → ClientConfig → Bool)
    (keyPath username hostname : String) :
    (∀ a, SetupEvent.bindAttempt a ∈
        (startTunnel listenOk probeOk localPort).1 →
      a = ⟨"localhost", localPort⟩) ∧
    bindCount (startTunnel listenOk probeOk localPort).1 = 1 ∧
    (listenOk ⟨"localhost", localPort⟩ = false →
      startTunnel listenOk probeOk localPort =
        ([SetupEvent.bindAttempt ⟨"localhost", localPort⟩],
         some TunnelError.bindFailed)) ∧
    (∀ cfg, listenOk ⟨"localhost", localPort⟩ = false →
      prepareSSHConfig fs parsePrivateKey keyPath username =
        Except.ok cfg →
      sshDialOk ⟨hostname, 22⟩ cfg = true →
      (runTunnelSetup fs parsePrivateKey sshDialOk listenOk probeOk
        keyPath username hostname localPort).2 =
        some (FatalError.startTunnelFailed TunnelError.bindFailed)) := by
  refine ⟨?_, ?_, ?_, ?_⟩
  · intro a h
    rcases startTunnel_events listenOk probeOk localPort _ h
      with h1 | h1 | h1
    · injection h1
    · cases h1
    · cases h1
  · by_cases hl : listenOk ⟨"localhost", localPort⟩
    · cases hw : waitForTunnelReady probeOk localPort with
      | mk evs r =>
        have h0 : evs.countP
            (fun e => match e with
              | SetupEvent.bindAttempt _ => true
              | _ => false) = 0 := by
          rw [List.countP_eq_zero]
          intro e he
          have he2 : e ∈ (waitForTunnelReady probeOk localPort).1 := by
            rw [hw]; exact he
          rcases waitReadyLoop_events probeOk localPort 5 0 e he2
            with h1 | h1 <;> subst h1 <;> simp
        simp only [bindCount, startTunnel, hl, if_pos, hw]
        rw [List.countP_cons]
        simp [h0]
    · simp [startTunnel, hl, bindCount]
  · intro h
    simp [startTunnel, h]
  · intro cfg hl hp hd
    rw [runTunnelSetup_eq_ok fs parsePrivateKey sshDialOk listenOk
      probeOk keyPath username hostname localPort cfg hp]
    rw [if_pos hd]
    have hst : startTunnel listenOk probeOk localPort =
        ([SetupEvent.bindAttempt ⟨"localhost", localPort⟩],
         some TunnelError.bindFailed) := by
      simp [startTunnel, hl]
    rw [hst]

/-- Witness for C8 on a world whose local port is already taken. -/
theorem claim_C8_witness :
    (fun _ : Addr => false) ⟨"localhost", 5602⟩ = false ∧
    startTunnel (fun _ => false) (fun _ => true) 5602 =
      ([SetupEvent.bindAttempt ⟨"localhost", 5602⟩],
       some TunnelError.bindFailed) ∧
    prepareSSHConfig ⟨some "/home/u", fun _ => some [1]⟩
        (fun b => some ⟨b⟩) "" "ubuntu" =
      Except.ok ⟨"ubuntu", [AuthMethod.publicKeys ⟨[1]⟩],
        HostKeyCheck.insecureIgnoreHostKey, 15 * timeSecond⟩ ∧
    (runTunnelSetup ⟨some "/home/u", fun _ => some [1]⟩
        (fun b => some ⟨b⟩) (fun _ _ => true) (fun _ => false)
        (fun _ => true) "" "ubuntu" "bastion" 5602).2 =
      some (FatalError.startTunnelFailed TunnelError.bindFailed) := by
  have h := claim_C8_bind_failure_fatal (fun _ => false) (fun _ => true)
    5602 ⟨some "/home/u", fun _ => some [1]⟩ (fun b => some ⟨b⟩)
    (fun _ _ => true) "" "ubuntu" "bastion"
  refine ⟨rfl, h.2.2.1 rfl, rfl, ?_⟩
  exact h.2.2.2 ⟨"ubuntu", [AuthMethod.publicKeys ⟨[1]⟩],
    HostKeyCheck.insecureIgnoreHostKey, 15 * timeSecond⟩ rfl rfl rfl

/-- C9: the readiness probe makes at most 5 dial attempts with 500ms
sleeps between them, returns as soon as one attempt succeeds (after
k failures and one success it has made exactly k+1 attempts), makes all
5 attempts when none succeeds, and never returns an error. -/
theorem claim_C9_ready_probe_best_effort (probeOk : Nat → Bool)
    (port : Nat) :
    (waitForTunnelReady probeOk port).2 = none ∧
    probeCount (waitForTunnelReady probeOk port).1 ≤ 5 ∧
    (∀ n, SetupEvent.sleepNs n ∈ (waitForTunnelReady probeOk port).1 →
      n = 500 * timeMillisecond) ∧
    (∀ k, k < 5 → (∀ j, j < k → probeOk j = false) → probeOk k = true →
      probeCount (waitForTunnelReady probeOk port).1 = k + 1) ∧
    ((∀ j, j < 5 → probeOk j = false) →
      probeCount (waitForTunnelReady probeOk port).1 = 5) := by
  refine ⟨waitReadyLoop_snd_eq_none probeOk port 5 0,
    probeCount_waitReadyLoop_le probeOk port 5 0, ?_, ?_, ?_⟩
  · intro n h
    rcases waitReadyLoop_events probeOk port 5 0 _ h with h1 | h1
    · cases h1
    · injection h1
  · intro k hk hfail hsucc
    exact probeCount_waitReadyLoop_success probeOk port 5 0 k hk
      (fun j hj => by simpa using hfail j hj) (by simpa using hsucc)
  · intro hfail
    exact probeCount_waitReadyLoop_all_fail probeOk port 5 0
      (fun j hj => by simpa using hfail j hj)

/-- Witness for C9 on a probe oracle whose first two dials fail and
whose third succeeds. -/
theorem claim_C9_witness :
    (waitForTunnelReady (fun i => decide (2 ≤ i)) 5602).2 = none ∧
    probeCount (waitForTunnelReady (fun i => decide (2 ≤ i)) 5602).1 ≤ 5 ∧
    (2 : Nat) < 5 ∧
    probeCount (waitForTunnelReady (fun i => decide (2 ≤ i)) 5602).1 =
      2 + 1 := by
  have h := claim_C9_ready_probe_best_effort (fun i => decide (2 ≤ i)) 5602
  exact ⟨h.1, h.2.1, by decide,
    h.2.2.2.1 2 (by decide) (by decide) (by decide)⟩

end Tunnel
